import Mathlib

/-!
Shallow embedding of `endpoint_monitor.py` (class `EndpointMonitor`).

Modelling conventions:
* Python dicts that are used as insertion-ordered mappings (the `endpoints`
  registry, the dict comprehension in `fetch`) are embedded as association
  lists in insertion order, with duplicate-key semantics made explicit where
  it matters.
* The network (`requests.get`) is an oracle `Net`: for a URL and timeout it
  either completes with a status code and a measured latency, or raises a
  `RequestException` carrying a message (`str(e)`).
* Wall-clock timestamps (`datetime.now().isoformat()`) are an oracle giving
  each probed endpoint name its timestamp string.
* Latency is a float in the source, rounded to two decimals; Python floats
  round-trip exactly through `str`/`float`, so the latency value is embedded
  as an exact numeral and the `str`/`float` pair as the decimal
  encoder/decoder below.
* The CSV data store is `none` (file absent) or `some rows`; the header row
  written on creation and consumed by `csv.DictReader` is implicit.
  `csv.DictWriter` stringifies every cell: `None` becomes `""`, a missing
  key (the `error` key of a successful probe) becomes the restval `""`.
* `print` output is collected as a list of emitted diagnostic strings.
-/

namespace EndpointMonitor

/-- `DEFAULT_TIMEOUT = 10` seconds. -/
def DEFAULT_TIMEOUT : Nat := 10

/-- One registry entry: `{"url": ..., "timeout": ...}`. The `timeout` key is
optional because `_check_endpoint` reads it with
`endpoint_data.get("timeout", DEFAULT_TIMEOUT)`. -/
structure Endpoint where
  url : String
  timeout : Option Nat
deriving Repr, DecidableEq

/-- The `endpoints` mapping of the configuration: a Python dict, embedded as
an insertion-ordered association list with distinct keys. -/
abbrev Config := List (String × Endpoint)

/-- Dict lookup `endpoints[name]` / `name in endpoints`. -/
def lookupEndpoint (endpoints : Config) (name : String) : Option Endpoint :=
  (endpoints.find? (fun p => p.1 = name)).map (fun p => p.2)

/-- Outcome of one `requests.get(url, timeout=timeout, allow_redirects=True)`
call: the exchange completes with a final status code and an elapsed time
(already converted to ms and rounded, kept as an exact numeral), or requests
raises a `RequestException` whose `str` is `msg`. -/
inductive HttpResult where
  | completes (status : Nat) (elapsedMs : Nat)
  | fails (msg : String)
deriving Repr, DecidableEq

/-- The network oracle: behaviour of `requests.get` per (url, timeout). -/
abbrev Net := String → Nat → HttpResult

/-- The result dict built by `_check_endpoint`. `error := none` embeds the
success branch, whose dict has no `"error"` key at all. -/
structure ProbeResult where
  name : String
  url : String
  timestamp : String
  status_code : Option Nat
  response_time : Option Nat
  is_available : Bool
  error : Option String
deriving Repr, DecidableEq

/-- `EndpointMonitor._check_endpoint(name, endpoint_data)`. -/
def _check_endpoint (net : Net) (now : String) (name : String)
    (endpoint_data : Endpoint) : ProbeResult :=
  let url := endpoint_data.url
  let timeout := endpoint_data.timeout.getD DEFAULT_TIMEOUT
  match net url timeout with
  | .completes status_code elapsedMs =>
      { name := name
        url := url
        timestamp := now
        status_code := some status_code
        response_time := some elapsedMs
        is_available := decide (200 ≤ status_code ∧ status_code < 400)
        error := none }
  | .fails msg =>
      { name := name
        url := url
        timestamp := now
        status_code := none
        response_time := none
        is_available := false
        error := some msg }

/-! ### Decimal string encoding (Python `str`/`int`/`float` on the values the
monitor stores: naturals and the exactly-representable rounded latencies). -/

/-- The character of one decimal digit. -/
def digitChar (d : Nat) : Char := Char.ofNat (48 + d)

/-- `str(n)` for a natural number: decimal digits, most significant first. -/
def natToString (n : Nat) : String :=
  if n = 0 then "0" else ⟨((Nat.digits 10 n).map digitChar).reverse⟩

/-- Numeric value of one decimal digit character. -/
def charDigit (c : Char) : Nat := c.toNat - 48

/-- `int(s)` / `float(s)` on the digit strings the store contains. -/
def stringToNat (s : String) : Nat :=
  Nat.ofDigits 10 ((s.data.map charDigit).reverse)

theorem charDigit_digitChar {d : Nat} (hd : d < 10) :
    charDigit (digitChar d) = d := by
  interval_cases d <;> decide

theorem stringToNat_natToString (n : Nat) : stringToNat (natToString n) = n := by
  by_cases h : n = 0
  · subst h; decide
  · unfold natToString stringToNat
    rw [if_neg h]
    show Nat.ofDigits 10
      (((((Nat.digits 10 n).map digitChar).reverse).map charDigit).reverse) = n
    rw [← List.map_reverse, List.reverse_reverse, List.map_map]
    have : (Nat.digits 10 n).map (charDigit ∘ digitChar)
        = (Nat.digits 10 n).map id := by
      apply List.map_congr_left
      intro d hd
      exact charDigit_digitChar (Nat.digits_lt_base (by norm_num) hd)
    rw [this, List.map_id, Nat.ofDigits_digits]

theorem natToString_ne_empty (n : Nat) : natToString n ≠ "" := by
  unfold natToString
  by_cases h : n = 0
  · rw [if_pos h]; decide
  · rw [if_neg h]
    intro hcontra
    have hdat : (((Nat.digits 10 n).map digitChar).reverse) = [] :=
      congrArg String.data hcontra
    have := (Nat.digits_ne_nil_iff_ne_zero (b := 10)).mpr h
    simp at hdat
    exact this hdat

theorem digitChar_ne_upper_n {d : Nat} (hd : d < 10) : digitChar d ≠ 'N' := by
  interval_cases d <;> decide

theorem natToString_ne_None (n : Nat) : natToString n ≠ "None" := by
  unfold natToString
  by_cases h : n = 0
  · rw [if_pos h]; decide
  · rw [if_neg h]
    intro hcontra
    have hdat : (((Nat.digits 10 n).map digitChar).reverse) = "None".data :=
      congrArg String.data hcontra
    have hmem : 'N' ∈ ((Nat.digits 10 n).map digitChar).reverse := by
      rw [hdat]; decide
    rw [List.mem_reverse, List.mem_map] at hmem
    obtain ⟨d, hdmem, hdeq⟩ := hmem
    exact digitChar_ne_upper_n (Nat.digits_lt_base (by norm_num) hdmem) hdeq

/-! ### Registry mutation: `add_endpoint` -/

/-- Result of one `add_endpoint` call: the returned boolean, the in-memory
`config["endpoints"]` mapping afterwards, the mapping passed to
`_save_config` (`none` when `_save_config` is not called), and the printed
messages. -/
structure AddResult where
  ok : Bool
  config : Config
  savedConfig : Option Config
  messages : List String
deriving Repr, DecidableEq

/-- `EndpointMonitor.add_endpoint(name, url, timeout)`. -/
def add_endpoint (config : Config) (name url : String) (timeout : Nat) :
    AddResult :=
  if (lookupEndpoint config name).isSome then
    { ok := false
      config := config
      savedConfig := none
      messages := ["Error: Endpoint " ++ name ++ " already exists"] }
  else
    let config2 := config ++ [(name, { url := url, timeout := some timeout })]
    { ok := true
      config := config2
      savedConfig := some config2
      messages := ["Added endpoint: " ++ name ++ " (" ++ url ++
        ") with timeout " ++ natToString timeout ++ "s"] }

/-! ### The data store (`data-store.csv`) -/

/-- One CSV data row as written by `csv.DictWriter.writerow`: every cell is
the `str()` of the dict value, with `None` written as `""` and a missing key
(the `error` key of a successful probe) written as the restval `""`. -/
structure Row where
  name : String
  url : String
  timestamp : String
  status_code : String
  response_time : String
  is_available : String
  error : String
deriving Repr, DecidableEq

/-- The data store file: `none` when `data-store.csv` does not exist,
`some rows` for an existing file with its header and data rows. -/
abbrev Store := Option (List Row)

/-- The cell written for an optional numeric value: `str(None)` is never
written — `csv` writes `None` as the empty string. -/
def encodeOptNat (v : Option Nat) : String :=
  match v with
  | none => ""
  | some n => natToString n

/-- `str(True) = "True"`, `str(False) = "False"`. -/
def encodeBool (b : Bool) : String := if b then "True" else "False"

/-- The row `_save_result` hands to `writer.writerow(result)`. -/
def encodeRow (r : ProbeResult) : Row :=
  { name := r.name
    url := r.url
    timestamp := r.timestamp
    status_code := encodeOptNat r.status_code
    response_time := encodeOptNat r.response_time
    is_available := encodeBool r.is_available
    error := r.error.getD "" }

/-- `EndpointMonitor._save_result(result)`: creates the file (with header)
on first use, then appends one row. -/
def _save_result (store : Store) (result : ProbeResult) : Store :=
  match store with
  | none => some [encodeRow result]
  | some rows => some (rows ++ [encodeRow result])

/-! ### `fetch` -/

/-- The dict comprehension
`{name: endpoints[name] for name in endpoint_names if name in endpoints}`:
unknown names are dropped; insertion order is the first-occurrence order of
`endpoint_names` (re-inserting an existing key keeps its position and, the
values being equal, changes nothing). -/
def filterByNames (endpoints : Config) (names : List String) : Config :=
  names.foldl (fun acc n =>
    if acc.any (fun p => p.1 = n) then acc
    else
      match lookupEndpoint endpoints n with
      | some d => acc ++ [(n, d)]
      | none => acc) []

/-- The `to_check` mapping of `fetch`. Python truthiness: both
`endpoint_names = None` and an empty list fail `if endpoint_names:`, so both
mean "no filter, check everything". -/
def toCheck (endpoints : Config) (endpoint_names : Option (List String)) :
    Config :=
  match endpoint_names with
  | none => endpoints
  | some names =>
      if names.isEmpty then endpoints else filterByNames endpoints names

/-- Monitor state: the `endpoints` mapping of the loaded configuration and
the data store file. -/
structure Monitor where
  config : Config
  store : Store
deriving Repr, DecidableEq

/-- Result of one `fetch` call: the returned result list, the monitor state
afterwards, and the printed diagnostics. -/
structure FetchResult where
  results : List ProbeResult
  monitor : Monitor
  messages : List String
deriving Repr, DecidableEq

/-- `EndpointMonitor.fetch(endpoint_names)`. The thread-pool fan-out is
embedded by its observable behaviour: one probe per `to_check` entry, and
the collection loop iterates `future_to_endpoint` in insertion order
(= `to_check` order), blocking on each `future.result()`, appending the
outcome and saving it to the store — so the result list and the sequence of
store writes both follow `to_check` order, and `fetch` returns only once
every probe has delivered its outcome (failures are caught inside
`_check_endpoint` and delivered as outcomes). -/
def fetch (net : Net) (clock : String → String) (m : Monitor)
    (endpoint_names : Option (List String)) : FetchResult :=
  let endpoints := m.config
  if endpoints.isEmpty then
    { results := []
      monitor := m
      messages :=
        ["No endpoints configured. Use add-endpoint command to add some."] }
  else
    let to_check := toCheck endpoints endpoint_names
    if to_check.isEmpty then
      { results := [], monitor := m, messages := ["No matching endpoints found"] }
    else
      let results := to_check.map (fun p => _check_endpoint net (clock p.1) p.1 p.2)
      { results := results
        monitor := { m with store := results.foldl _save_result m.store }
        messages := [] }

/-! ### `history` -/

/-- A row after the type conversions `history` applies before rendering. -/
structure HistoryRecord where
  name : String
  url : String
  timestamp : String
  status_code : Option Nat
  response_time : Option Nat
  is_available : Bool
  error : String
deriving Repr, DecidableEq

/-- `row["x"].lower()` — Python `str.lower`, per-character. -/
def pyToLower (s : String) : String := ⟨s.data.map Char.toLower⟩

/-- The conversion `history` applies to the `status_code` and
`response_time` cells: `int(cell)`/`float(cell)` if the cell is truthy
(non-empty) and not the literal `"None"`, else `None`. -/
def decodeNumCell (s : String) : Option Nat :=
  if s ≠ "" ∧ s ≠ "None" then some (stringToNat s) else none

/-- One row as converted inside the `history` read loop. -/
def decodeRow (row : Row) : HistoryRecord :=
  { name := row.name
    url := row.url
    timestamp := row.timestamp
    status_code := decodeNumCell row.status_code
    response_time := decodeNumCell row.response_time
    is_available := pyToLower row.is_available == "true"
    error := row.error }

/-- The filter `if endpoint_names and row["name"] not in endpoint_names:
continue` — again an empty list is falsy, hence no filtering. -/
def nameFilteredOut (endpoint_names : Option (List String)) (name : String) :
    Bool :=
  match endpoint_names with
  | none => false
  | some names => !names.isEmpty && !names.contains name

/-- `EndpointMonitor.history(endpoint_names)`: the records it renders, the
monitor state afterwards (the method only reads the store), and the
diagnostics printed when there is no store yet. -/
def history (m : Monitor) (endpoint_names : Option (List String)) :
    List HistoryRecord × Monitor × List String :=
  match m.store with
  | none => ([], m, ["No history available yet"])
  | some rows =>
      (rows.filterMap (fun row =>
        if nameFilteredOut endpoint_names (decodeRow row).name then none
        else some (decodeRow row)), m, [])

/-! ### Concrete fixtures used by witnesses and counterexamples -/

/-- A network on which every exchange completes with status 301 in 12 ms. -/
def netRedirect : Net := fun _ _ => .completes 301 12

/-- A network on which every exchange fails at the transport level. -/
def netDown : Net := fun _ _ => .fails "connection refused"

/-- A constant wall clock. -/
def clockT : String → String := fun _ => "2023-01-01T12:00:00"

/-- A one-entry registry. -/
def cfgA : Config := [("a", { url := "http://x", timeout := some 5 })]

/-- A monitor over `cfgA` with no data store yet. -/
def monA : Monitor := { config := cfgA, store := none }

/-! ### Helper lemmas -/

theorem lookupEndpoint_nil (n : String) : lookupEndpoint [] n = none := rfl

theorem filterByNames_fold_id (names : List String) (endpoints : Config)
    (h : ∀ n ∈ names, lookupEndpoint endpoints n = none) (acc : Config) :
    names.foldl (fun acc n =>
      if acc.any (fun p => p.1 = n) then acc
      else
        match lookupEndpoint endpoints n with
        | some d => acc ++ [(n, d)]
        | none => acc) acc = acc := by
  induction names generalizing acc with
  | nil => rfl
  | cons n ns ih =>
      have hn := h n (List.mem_cons_self n ns)
      have hstep : (if acc.any (fun p => p.1 = n) then acc
          else
            match lookupEndpoint endpoints n with
            | some d => acc ++ [(n, d)]
            | none => acc) = acc := by
        rw [hn]; split <;> rfl
      rw [List.foldl_cons, hstep]
      exact ih (fun x hx => h x (List.mem_cons_of_mem n hx)) acc

theorem filterByNames_eq_nil {endpoints : Config} {names : List String}
    (h : ∀ n ∈ names, lookupEndpoint endpoints n = none) :
    filterByNames endpoints names = [] :=
  filterByNames_fold_id names endpoints h []

theorem toCheck_nil (names : Option (List String)) : toCheck [] names = [] := by
  cases names with
  | none => rfl
  | some l =>
      by_cases h : l.isEmpty
      · simp [toCheck, h]
      · simp [toCheck, h, filterByNames_eq_nil (fun n _ => lookupEndpoint_nil n)]

/-! ### C1 -/

/-- C1: with no subset filter, `fetch` over an `endpoints` mapping of N
entries returns exactly N outcomes, one per input entry and in particular
one for every failed probe — the fan-out collects every probe's outcome
before returning and never short-circuits. -/
theorem C1_fetch_no_filter_complete (net : Net) (clock : String → String)
    (m : Monitor) :
    (fetch net clock m none).results
      = m.config.map (fun p => _check_endpoint net (clock p.1) p.1 p.2) ∧
    (fetch net clock m none).results.length = m.config.length := by
  unfold fetch toCheck
  by_cases h : m.config.isEmpty
  · have hc : m.config = [] := by simpa using h
    simp [h, hc]
  · simp [h]

/-! ### C2 -/

/-- C2: whenever the HTTP exchange completes with status code `s`, the
outcome is available iff `200 ≤ s < 400`, and it carries the status code and
the measured latency and no error. -/
theorem C2_completed_status_classification (net : Net) (now name : String)
    (d : Endpoint) (s t : Nat)
    (h : net d.url (d.timeout.getD DEFAULT_TIMEOUT) = .completes s t) :
    ((_check_endpoint net now name d).is_available = true ↔
        (200 ≤ s ∧ s < 400)) ∧
    (_check_endpoint net now name d).status_code = some s ∧
    (_check_endpoint net now name d).response_time = some t ∧
    (_check_endpoint net now name d).error = none := by
  simp only [_check_endpoint, h]
  simp [decide_eq_true_iff]

/-- Concrete instance of C2: a 301 redirect answer in 12 ms is classified
available, with status and latency populated and no error. -/
theorem C2_witness :
    netRedirect "http://x" 5 = .completes 301 12 ∧
    (((_check_endpoint netRedirect "2023-01-01T12:00:00" "a"
        { url := "http://x", timeout := some 5 }).is_available = true ↔
        (200 ≤ 301 ∧ 301 < 400)) ∧
    (_check_endpoint netRedirect "2023-01-01T12:00:00" "a"
        { url := "http://x", timeout := some 5 }).status_code = some 301 ∧
    (_check_endpoint netRedirect "2023-01-01T12:00:00" "a"
        { url := "http://x", timeout := some 5 }).response_time = some 12 ∧
    (_check_endpoint netRedirect "2023-01-01T12:00:00" "a"
        { url := "http://x", timeout := some 5 }).error = none) :=
  ⟨rfl, C2_completed_status_classification netRedirect "2023-01-01T12:00:00"
    "a" { url := "http://x", timeout := some 5 } 301 12 rfl⟩

/-! ### C3 -/

/-- C3: every outcome the probe executor produces has exactly one of two
shapes — status code and latency both present with the error absent, or the
error present — never both and never neither; a completed exchange with an
out-of-range status falls in the first case (availability false, no
error). -/
theorem C3_outcome_exactly_one (net : Net) (now name : String) (d : Endpoint) :
    (((_check_endpoint net now name d).status_code.isSome = true ∧
        (_check_endpoint net now name d).response_time.isSome = true) ∧
      ¬ (_check_endpoint net now name d).error.isSome = true) ∨
    (¬ ((_check_endpoint net now name d).status_code.isSome = true ∧
        (_check_endpoint net now name d).response_time.isSome = true) ∧
      (_check_endpoint net now name d).error.isSome = true) := by
  rcases h : net d.url (d.timeout.getD DEFAULT_TIMEOUT) with _ | _ <;>
    simp [_check_endpoint, h]

/-! ### C4 -/

/-- C4: whenever the HTTP exchange fails to complete (timeout expiry or
transport-level failure, surfacing as a `RequestException` with description
`msg`), the outcome carries no status code, no latency,
`is_available = false`, and the non-empty error description derived from the
failure cause. -/
theorem C4_failed_exchange (net : Net) (now name : String) (d : Endpoint)
    (msg : String)
    (h : net d.url (d.timeout.getD DEFAULT_TIMEOUT) = .fails msg)
    (hmsg : msg ≠ "") :
    (_check_endpoint net now name d).status_code = none ∧
    (_check_endpoint net now name d).response_time = none ∧
    (_check_endpoint net now name d).is_available = false ∧
    (_check_endpoint net now name d).error = some msg ∧
    (_check_endpoint net now name d).error ≠ some "" := by
  simp only [_check_endpoint, h]
  simp [hmsg]

/-- Concrete instance of C4: a refused connection yields a DOWN outcome with
no status or latency and the non-empty transport error text. -/
theorem C4_witness :
    netDown "http://x" 5 = .fails "connection refused" ∧
    "connection refused" ≠ "" ∧
    ((_check_endpoint netDown "2023-01-01T12:00:00" "a"
        { url := "http://x", timeout := some 5 }).status_code = none ∧
    (_check_endpoint netDown "2023-01-01T12:00:00" "a"
        { url := "http://x", timeout := some 5 }).response_time = none ∧
    (_check_endpoint netDown "2023-01-01T12:00:00" "a"
        { url := "http://x", timeout := some 5 }).is_available = false ∧
    (_check_endpoint netDown "2023-01-01T12:00:00" "a"
        { url := "http://x", timeout := some 5 }).error
          = some "connection refused" ∧
    (_check_endpoint netDown "2023-01-01T12:00:00" "a"
        { url := "http://x", timeout := some 5 }).error ≠ some "") :=
  ⟨rfl, by decide, C4_failed_exchange netDown "2023-01-01T12:00:00" "a"
    { url := "http://x", timeout := some 5 } "connection refused" rfl
    (by decide)⟩

/-! ### C5 -/

/-- C5 as stated is false: the filter `some []` names none of the registered
endpoints (vacuously it "matches none of the registered names"), yet
`fetch` — because `if endpoint_names:` treats an empty list as "no filter" —
probes the whole registry: on a one-entry registry it performs one probe,
returns one outcome, writes one row to the data store, and emits no
diagnostic. -/
theorem C5_counterexample :
    (fetch netDown clockT monA (some [])).results.length = 1 ∧
    (fetch netDown clockT monA (some [])).monitor.store ≠ monA.store ∧
    (fetch netDown clockT monA (some [])).messages = [] := by
  refine ⟨by decide, ?_, by decide⟩
  intro hcontra
  simp [fetch, toCheck, monA, cfgA, _save_result] at hcontra

/-- C5 (amended): if the configured endpoint set is empty, or a supplied
non-empty subset filter matches none of the registered names (an empty
filter list is treated by `fetch` as the absence of a filter), then `fetch`
performs zero probes, leaves the monitor state (data store included)
untouched, emits exactly one diagnostic message, and returns an empty
result list. -/
theorem C5_amended_no_match (net : Net) (clock : String → String)
    (m : Monitor) (names : Option (List String))
    (h : m.config = [] ∨ ∃ l, names = some l ∧ l ≠ [] ∧
      ∀ n ∈ l, lookupEndpoint m.config n = none) :
    (fetch net clock m names).results = [] ∧
    (fetch net clock m names).monitor = m ∧
    (fetch net clock m names).messages.length = 1 := by
  rcases h with h | ⟨l, hn, hl, hnone⟩
  · simp [fetch, h]
  · subst hn
    by_cases hc : m.config.isEmpty
    · simp [fetch, hc]
    · have hle : l.isEmpty = false := by
        cases l with
        | nil => exact absurd rfl hl
        | cons x xs => rfl
      have hfilter : filterByNames m.config l = [] := filterByNames_eq_nil hnone
      simp [fetch, toCheck, hc, hle, hfilter]

/-- Concrete instance of the amended C5: filtering the one-entry registry by
the unknown name `b` probes nothing, changes nothing and prints one
diagnostic. -/
theorem C5_amended_witness :
    (cfgA = [] ∨ ∃ l, (some ["b"] : Option (List String)) = some l ∧
      l ≠ [] ∧ ∀ n ∈ l, lookupEndpoint cfgA n = none) ∧
    ((fetch netDown clockT monA (some ["b"])).results = [] ∧
    (fetch netDown clockT monA (some ["b"])).monitor = monA ∧
    (fetch netDown clockT monA (some ["b"])).messages.length = 1) :=
  ⟨Or.inr ⟨["b"], rfl, by decide, by decide⟩,
    C5_amended_no_match netDown clockT monA (some ["b"])
      (Or.inr ⟨["b"], rfl, by decide, by decide⟩)⟩

/-! ### C6 -/

/-- C6: adding an endpoint under an already-configured name returns `false`,
leaves the registry unchanged (the existing entry keeps its url and
timeout), does not write the configuration file, and reports the
duplication. -/
theorem C6_add_duplicate (config : Config) (name url : String)
    (timeout : Nat) (e : Endpoint)
    (h : lookupEndpoint config name = some e) :
    (add_endpoint config name url timeout).ok = false ∧
    (add_endpoint config name url timeout).config = config ∧
    lookupEndpoint (add_endpoint config name url timeout).config name
      = some e ∧
    (add_endpoint config name url timeout).savedConfig = none ∧
    (add_endpoint config name url timeout).messages ≠ [] := by
  simp [add_endpoint, h]

/-- Concrete instance of C6: re-adding `a` with a different url and timeout
fails, keeps the original entry (`http://x`, timeout 5), saves nothing and
prints the duplication error. -/
theorem C6_witness :
    lookupEndpoint cfgA "a" = some { url := "http://x", timeout := some 5 } ∧
    ((add_endpoint cfgA "a" "http://y" 9).ok = false ∧
    (add_endpoint cfgA "a" "http://y" 9).config = cfgA ∧
    lookupEndpoint (add_endpoint cfgA "a" "http://y" 9).config "a"
      = some { url := "http://x", timeout := some 5 } ∧
    (add_endpoint cfgA "a" "http://y" 9).savedConfig = none ∧
    (add_endpoint cfgA "a" "http://y" 9).messages ≠ []) := by
  refine ⟨by decide, C6_add_duplicate cfgA "a" "http://y" 9
    { url := "http://x", timeout := some 5 } (by decide)⟩

/-! ### C7 -/

/-- C7: one `fetch` cycle never mutates the endpoint registry, whatever the
subset filter: the configuration mapping after the cycle is the one before
it. -/
theorem C7_fetch_config_frame (net : Net) (clock : String → String)
    (m : Monitor) (names : Option (List String)) :
    (fetch net clock m names).monitor.config = m.config := by
  unfold fetch
  by_cases h : m.config.isEmpty
  · simp [h]
  · by_cases h2 : (toCheck m.config names).isEmpty <;> simp [h, h2]

/-! ### C8 -/

/-- C8: `history` only reads the data store; running it twice in a row with
the same name filter and no intervening activity returns the identical
sequence of records. -/
theorem C8_history_idempotent (m : Monitor) (names : Option (List String)) :
    (history m names).2.1 = m ∧
    (history ((history m names).2.1) names).1 = (history m names).1 := by
  obtain ⟨c, s⟩ := m
  cases s <;> simp [history]

/-! ### C9 -/

/-- C9: the outcome list `fetch` returns follows exactly the insertion
order of the probed `to_check` mapping (the input mapping of the fan-out),
and the data-store writes are issued sequentially, one per outcome, as the
left fold of `_save_result` over that same ordered list. -/
theorem C9_fetch_order (net : Net) (clock : String → String) (m : Monitor)
    (names : Option (List String)) :
    (fetch net clock m names).results
      = (toCheck m.config names).map
          (fun p => _check_endpoint net (clock p.1) p.1 p.2) ∧
    (fetch net clock m names).monitor.store
      = ((fetch net clock m names).results).foldl _save_result m.store := by
  unfold fetch
  by_cases h : m.config.isEmpty
  · have hc : m.config = [] := by simpa using h
    simp [h, hc, toCheck_nil]
  · by_cases h2 : (toCheck m.config names).isEmpty
    · have hc2 : toCheck m.config names = [] := by simpa using h2
      simp [h, h2, hc2]
    · simp [h, h2]

/-! ### C10 -/

theorem filterMap_some_decodeRow (rows : List Row) :
    rows.filterMap (fun row => some (decodeRow row)) = rows.map decodeRow := by
  induction rows with
  | nil => rfl
  | cons a l ih => simp [List.filterMap_cons, ih]

theorem decodeNumCell_encodeOptNat (v : Option Nat) :
    decodeNumCell (encodeOptNat v) = v := by
  cases v with
  | none => rfl
  | some n =>
      unfold decodeNumCell encodeOptNat
      rw [if_pos ⟨natToString_ne_empty n, natToString_ne_None n⟩,
        stringToNat_natToString]

theorem pyToLower_encodeBool (b : Bool) :
    (pyToLower (encodeBool b) == "true") = b := by
  cases b <;> decide

theorem decodeRow_encodeRow (r : ProbeResult) :
    decodeRow (encodeRow r) =
      { name := r.name
        url := r.url
        timestamp := r.timestamp
        status_code := r.status_code
        response_time := r.response_time
        is_available := r.is_available
        error := r.error.getD "" } := by
  unfold decodeRow encodeRow
  simp [decodeNumCell_encodeOptNat, pyToLower_encodeBool]

/-- C10: a `ProbeOutcome` appended by `_save_result` and read back by
`history` preserves name, url, timestamp, `status_code` (`None`
round-trips to `None`), `response_time` and `is_available` exactly;
only the error field changes representation, reading back as the empty
string when the outcome had no error key. `history` with no filter returns
the previously stored records followed by the newly appended one. -/
theorem C10_store_roundtrip (r : ProbeResult) (m : Monitor) :
    (decodeRow (encodeRow r)).name = r.name ∧
    (decodeRow (encodeRow r)).url = r.url ∧
    (decodeRow (encodeRow r)).timestamp = r.timestamp ∧
    (decodeRow (encodeRow r)).status_code = r.status_code ∧
    (decodeRow (encodeRow r)).response_time = r.response_time ∧
    (decodeRow (encodeRow r)).is_available = r.is_available ∧
    (decodeRow (encodeRow r)).error = r.error.getD "" ∧
    (history { config := m.config, store := _save_result m.store r } none).1
      = (m.store.getD []).map decodeRow ++ [decodeRow (encodeRow r)] := by
  refine ⟨?_, ?_, ?_, ?_, ?_, ?_, ?_, ?_⟩
  · rw [decodeRow_encodeRow r]
  · rw [decodeRow_encodeRow r]
  · rw [decodeRow_encodeRow r]
  · rw [decodeRow_encodeRow r]
  · rw [decodeRow_encodeRow r]
  · rw [decodeRow_encodeRow r]
  · rw [decodeRow_encodeRow r]
  · cases hs : m.store with
    | none => simp [history, _save_result, nameFilteredOut]
    | some rows =>
        simp [history, _save_result, nameFilteredOut, filterMap_some_decodeRow]

end EndpointMonitor
